import Mathlib

/-!
Shallow embedding of the whalebox repository: the QEMU command builder of
qemu_runner.py and the generated lifecycle scripts of setup-ubuntu-vm.py.
Host-environment effects (path existence checks, the KVM device probe,
signal delivery, external process launches) are embedded as explicit
environment records, so every function is pure and executable.
-/

namespace QemuRunner

/-- Truthiness of an optional string option, exactly as a Python if-condition
evaluates it: None and the empty string are falsy, every other string is
truthy. -/
def truthy : Option String → Bool
  | none => false
  | some s => decide (s ≠ "")

/-- Whitespace splitting as the Python split method with no separator does
it: split on whitespace characters and drop empty pieces. -/
def splitWhitespace (s : String) : List String :=
  (s.split Char.isWhitespace).filter (fun t => decide (t ≠ ""))

/-- Host-environment facts the command builder consults: which filesystem
paths exist (the existence checks on disk, cdrom and the KVM device node)
and whether opening the KVM device node for read succeeds (false means the
open raises a permission error). -/
structure Env where
  pathExists : String → Bool
  kvmAccessible : Bool

/-- The two typed failures the builder can raise while assembling a command:
a missing disk image or a missing cdrom image. -/
inductive BuildError where
  | diskNotFound (path : String)
  | cdromNotFound (path : String)
  deriving DecidableEq

/-- The argument namespace consumed by the command builder, with the fields
the builder reads. Optional string options are None when absent. -/
structure Args where
  memory : String
  cores : Int
  disk : Option String
  cdrom : Option String
  boot : Option String
  network : Bool
  network_device : String
  vnc : Option String
  display : Option String
  enable_kvm : Bool
  qemu_args : Option String
  verbose : Bool

/-- Memory clause: emits the memory flag when the memory string is truthy. -/
def memorySection (memory : String) : List String :=
  if memory = "" then [] else ["-m", memory]

/-- CPU cores clause: emits the smp flag when the core count is truthy. -/
def coresSection (cores : Int) : List String :=
  if cores = 0 then [] else ["-smp", toString cores]

/-- Disk clause: when a disk path is supplied it must exist, else the
builder raises the disk-not-found error; on success it emits the hda pair. -/
def diskSection (env : Env) : Option String → Except BuildError (List String)
  | none => Except.ok []
  | some d =>
    if d = "" then Except.ok []
    else if env.pathExists d then Except.ok ["-hda", d]
    else Except.error (BuildError.diskNotFound d)

/-- Cdrom clause: same existence contract as the disk clause with its own
error constructor and flag. -/
def cdromSection (env : Env) : Option String → Except BuildError (List String)
  | none => Except.ok []
  | some c =>
    if c = "" then Except.ok []
    else if env.pathExists c then Except.ok ["-cdrom", c]
    else Except.error (BuildError.cdromNotFound c)

/-- Boot-order clause, emitted verbatim when supplied. -/
def bootSection : Option String → List String
  | none => []
  | some b => if b = "" then [] else ["-boot", b]

/-- Network clause: a user-mode backend with the fixed internal id net0 plus
a device of the configured model bound to that id. -/
def networkSection (network : Bool) (network_device : String) : List String :=
  if network then
    ["-netdev", "user,id=net0", "-device", network_device ++ ",netdev=net0"]
  else []

/-- Display clause: a VNC target wins, else an explicit display backend,
else the headless default of display none with serial on stdio. -/
def displaySection (vnc display : Option String) : List String :=
  if truthy vnc then ["-vnc", vnc.getD ""]
  else if truthy display then ["-display", display.getD ""]
  else ["-display", "none", "-serial", "stdio"]

/-- Acceleration clause: when KVM is requested and the device node exists,
an accessible node yields the enable-kvm flag and a permission failure on
the open probe falls back to software acceleration; an absent node yields
no acceleration flag at all. -/
def kvmSection (env : Env) (enable_kvm : Bool) : List String :=
  if enable_kvm && env.pathExists "/dev/kvm" then
    if env.kvmAccessible then ["-enable-kvm"] else ["-accel", "tcg"]
  else []

/-- Extra pass-through arguments: split on whitespace and appended verbatim
when truthy. -/
def qemuArgsSection : Option String → List String
  | none => []
  | some s => if s = "" then [] else splitWhitespace s

/-- Translation of the command builder: assembles the clauses in source
order, raising the first missing-path error before any vector exists. -/
def build_qemu_command (env : Env) (binary : String) (a : Args) :
    Except BuildError (List String) :=
  match diskSection env a.disk with
  | Except.error e => Except.error e
  | Except.ok dsk =>
    match cdromSection env a.cdrom with
    | Except.error e => Except.error e
    | Except.ok cd =>
      Except.ok ([binary] ++ memorySection a.memory ++ coresSection a.cores
        ++ dsk ++ cd ++ bootSection a.boot
        ++ networkSection a.network a.network_device
        ++ displaySection a.vnc a.display
        ++ kvmSection env a.enable_kvm
        ++ qemuArgsSection a.qemu_args)

/-- The fixed ordered candidate list of emulator binary names. -/
def qemu_binaries : List String :=
  ["qemu-system-x86_64", "qemu-system-i386", "qemu-system-aarch64", "qemu-kvm"]

/-- The fatal error raised when no candidate emulator binary is found. -/
inductive FindError where
  | noEmulatorFound
  deriving DecidableEq

/-- Probe candidate binaries in order with the on-search-path check and stop
at the first hit. -/
def probeBinaries (onPath : String → Bool) : List String → Except FindError String
  | [] => Except.error FindError.noEmulatorFound
  | b :: rest => if onPath b then Except.ok b else probeBinaries onPath rest

/-- Translation of the binary finder over a host search-path oracle. -/
def find_qemu_binary (onPath : String → Bool) : Except FindError String :=
  probeBinaries onPath qemu_binaries

/-- Host facts the disk-creation passthrough consults: whether the external
image tool is on the search path, the exit code it returns when run, and
which paths exist (the code never reads the latter, recorded here so the
idempotence question is statable). -/
structure DiskEnv where
  qemu_img_present : Bool
  create_exit : Int
  pathExists : String → Bool

/-- Translation of the disk-creation passthrough: the list of external
invocations actually launched and the exit code reported. A missing tool
binary launches nothing and reports exit 1. -/
def create_disk (e : DiskEnv) (path size fmt : String) :
    List (List String) × Int :=
  if e.qemu_img_present then
    ([["qemu-img", "create", "-f", fmt, path, size]], e.create_exit)
  else ([], 1)

/-- Semantics of an argparse store-true option: the flag stores the constant
true when present on the command line, and the declared default applies
otherwise. -/
def storeTrue (dflt flagPresent : Bool) : Bool :=
  if flagPresent then true else dflt

/-- The enable-kvm option as declared in the source: a store-true action
whose declared default is also true. -/
def parsed_enable_kvm (flagPresent : Bool) : Bool :=
  storeTrue true flagPresent

end QemuRunner

namespace SetupVm

/-- Result of opening and parsing the PID file: a parsed integer PID, an
unparsable content (a ValueError from int conversion), a vanished file, or
any other read failure. -/
inductive ReadResult where
  | pid (n : Int)
  | invalid
  | notFound
  | otherError
  deriving DecidableEq

/-- Outcome of delivering a signal to the recorded PID: delivered, process
lookup failure, permission failure, or any other failure. -/
inductive KillResult where
  | ok
  | processLookup
  | permission
  | otherError
  deriving DecidableEq

/-- The externally visible effects the generated stop script performs, in
order: a signal to the recorded PID, the broad pattern-based kill of all
processes matching the VM name, and removal of the PID file. -/
inductive StopAction where
  | killPid (pid : Int)
  | patternKill
  | unlinkPidFile
  deriving DecidableEq

/-- Host facts the generated stop script consults. The pattern-kill helper
runs the process-table kill without a check flag and swallows every
exception, so its own success is recorded here but can never influence
control flow. -/
structure StopEnv where
  pid_file_exists : Bool
  read_result : ReadResult
  kill_result : KillResult
  pattern_kill_succeeds : Bool

/-- Translation of the generated stop script body: the ordered effects it
performs. A graceful kill that lands removes the PID file and returns; any
failed kill falls back to the pattern kill and still removes the PID file;
an unreadable or unparsable PID file goes straight to the fallback; a
missing PID file yields the fallback alone. -/
def stop_vm (e : StopEnv) : List StopAction :=
  if e.pid_file_exists then
    match e.read_result with
    | ReadResult.pid n =>
      match e.kill_result with
      | KillResult.ok => [StopAction.killPid n, StopAction.unlinkPidFile]
      | _ => [StopAction.killPid n, StopAction.patternKill,
          StopAction.unlinkPidFile]
    | ReadResult.invalid => [StopAction.patternKill, StopAction.unlinkPidFile]
    | _ => StopAction.patternKill ::
        (if e.pid_file_exists then [StopAction.unlinkPidFile] else [])
  else [StopAction.patternKill]

/-- The status lines the generated status script can report. -/
inductive VmStatus where
  | running (pid : Int)
  | stoppedStale
  | stoppedInvalid
  | unknown
  | runningNoFile
  | stopped
  deriving DecidableEq

/-- Host facts the generated status script consults: the PID file, the
result of reading it, the outcome of the existence-only zero-signal probe of
the parsed PID, and whether the process-table pattern search finds a
matching process. -/
structure StatusEnv where
  pid_file_exists : Bool
  read_result : ReadResult
  probe_result : KillResult
  pgrep_finds : Bool

/-- Translation of the generated status script body: the reported status and
whether the PID file gets deleted. A live or permission-protected PID
reports running without touching the file; a vanished process reports the
stale transition and deletes the file; unparsable or vanished file contents
report the invalid transition and delete the file; with no PID file the
pattern search disambiguates running from stopped. -/
def check_vm_status (e : StatusEnv) : VmStatus × Bool :=
  if e.pid_file_exists then
    match e.read_result with
    | ReadResult.pid n =>
      match e.probe_result with
      | KillResult.ok => (VmStatus.running n, false)
      | KillResult.processLookup => (VmStatus.stoppedStale, true)
      | KillResult.permission => (VmStatus.running n, false)
      | KillResult.otherError => (VmStatus.unknown, false)
    | ReadResult.invalid => (VmStatus.stoppedInvalid, true)
    | ReadResult.notFound => (VmStatus.stoppedInvalid, true)
    | ReadResult.otherError => (VmStatus.unknown, false)
  else if e.pgrep_finds then (VmStatus.runningNoFile, false)
  else (VmStatus.stopped, false)

/-- Host facts the setup script's disk-creation step consults: whether the
VM disk already exists and whether the checked convert and resize
invocations succeed. -/
structure DiskStepEnv where
  vm_disk_exists : Bool
  convert_ok : Bool
  resize_ok : Bool

/-- The image-conversion invocation the setup script launches. -/
def convertCmd : List String :=
  ["qemu-img", "convert", "-f", "qcow2", "-O", "qcow2",
    "jammy-server-cloudimg-amd64.img", "ubuntu-vm.qcow2"]

/-- The disk-resize invocation the setup script launches. -/
def resizeCmd : List String :=
  ["qemu-img", "resize", "ubuntu-vm.qcow2", "20G"]

/-- Translation of the setup script's create-disk step: the external
invocations launched and whether the step completes (a checked failure
aborts the whole setup). An existing VM disk skips both invocations. -/
def create_disk (e : DiskStepEnv) : List (List String) × Bool :=
  if e.vm_disk_exists then ([], true)
  else if e.convert_ok then
    if e.resize_ok then ([convertCmd, resizeCmd], true)
    else ([convertCmd, resizeCmd], false)
  else ([convertCmd], false)

end SetupVm

namespace QemuRunner

/-- Host environment with no paths present and no KVM access. -/
def envNone : Env := ⟨fun _ => false, false⟩

/-- Host environment where only the sample disk path exists. -/
def envDiskOnly : Env := ⟨fun p => p == "/path/to/disk.qcow2", false⟩

/-- Host environment where the KVM device node exists but opening it raises
a permission error. -/
def envKvmDenied : Env := ⟨fun p => p == "/dev/kvm", false⟩

/-- The basic headless scenario arguments: memory 2G, four cores, nothing
else supplied, KVM disabled. -/
def scenarioArgs : Args :=
  ⟨"2G", 4, none, none, none, false, "e1000", none, none, false, none, false⟩

/-- The headless scenario arguments with a boot order supplied as well. -/
def bootArgs : Args :=
  ⟨"2G", 4, none, none, some "d", false, "e1000", none, none, false, none, false⟩

/-- Arguments supplying the sample disk path and nothing else. -/
def diskArgs : Args :=
  ⟨"1G", 1, some "/path/to/disk.qcow2", none, none, false, "e1000", none, none,
    false, none, false⟩

/-- Arguments supplying both a VNC target and a display backend. -/
def vncArgs : Args :=
  ⟨"1G", 1, none, none, none, false, "e1000", some ":1", some "gtk", false,
    none, false⟩

/-- Arguments with networking enabled and the default device model. -/
def netArgs : Args :=
  ⟨"1G", 1, none, none, none, true, "e1000", none, none, false, none, false⟩

/-- Arguments requesting KVM with everything else off. -/
def kvmArgs : Args :=
  ⟨"1G", 1, none, none, none, false, "e1000", none, none, true, none, false⟩

/-- An image-tool environment where the tool is present, its run succeeds,
and every filesystem path exists. -/
def allExistsDiskEnv : DiskEnv := ⟨true, 0, fun _ => true⟩

/-- A falsy disk option contributes no tokens and no error. -/
theorem diskSection_falsy (env : Env) {o : Option String}
    (h : truthy o = false) : diskSection env o = Except.ok [] := by
  cases o with
  | none => rfl
  | some s =>
    simp [truthy] at h
    simp [diskSection, h]

/-- A falsy cdrom option contributes no tokens and no error. -/
theorem cdromSection_falsy (env : Env) {o : Option String}
    (h : truthy o = false) : cdromSection env o = Except.ok [] := by
  cases o with
  | none => rfl
  | some s =>
    simp [truthy] at h
    simp [cdromSection, h]

/-- A falsy boot option contributes no tokens. -/
theorem bootSection_falsy {o : Option String}
    (h : truthy o = false) : bootSection o = [] := by
  cases o with
  | none => rfl
  | some s =>
    simp [truthy] at h
    simp [bootSection, h]

/-- A falsy extra-arguments option contributes no tokens. -/
theorem qemuArgsSection_falsy {o : Option String}
    (h : truthy o = false) : qemuArgsSection o = [] := by
  cases o with
  | none => rfl
  | some s =>
    simp [truthy] at h
    simp [qemuArgsSection, h]

/-- With neither a VNC target nor a display backend the display clause is
the headless default. -/
theorem displaySection_falsy {vnc display : Option String}
    (hv : truthy vnc = false) (hd : truthy display = false) :
    displaySection vnc display = ["-display", "none", "-serial", "stdio"] := by
  simp [displaySection, hv, hd]

/-- The cdrom clause can only fail with the cdrom error constructor. -/
theorem cdromSection_error (env : Env) {o : Option String} {e : BuildError}
    (h : cdromSection env o = Except.error e) :
    ∃ c, e = BuildError.cdromNotFound c := by
  cases o with
  | none => simp [cdromSection] at h
  | some c =>
    by_cases hc : c = ""
    · simp [cdromSection, hc] at h
    · by_cases hp : env.pathExists c
      · simp [cdromSection, hc, hp] at h
      · simp [cdromSection, hc, hp] at h
        exact ⟨c, h.symm⟩

/-- Decomposition of a successful build into its clause sections: the vector
is exactly the concatenation of the clauses in source order. -/
theorem build_ok_iff (env : Env) (binary : String) (a : Args)
    (v : List String) :
    build_qemu_command env binary a = Except.ok v ↔
      ∃ dsk cd, diskSection env a.disk = Except.ok dsk ∧
        cdromSection env a.cdrom = Except.ok cd ∧
        v = [binary] ++ memorySection a.memory ++ coresSection a.cores
          ++ dsk ++ cd ++ bootSection a.boot
          ++ networkSection a.network a.network_device
          ++ displaySection a.vnc a.display
          ++ kvmSection env a.enable_kvm
          ++ qemuArgsSection a.qemu_args := by
  unfold build_qemu_command
  cases hd : diskSection env a.disk with
  | error e => simp
  | ok dsk =>
    cases hc : cdromSection env a.cdrom with
    | error e => simp
    | ok cd =>
      simp [eq_comm]

end QemuRunner

open QemuRunner

/-- A truthy option is exactly a supplied nonempty string. -/
theorem truthy_iff {o : Option String} :
    truthy o = true ↔ ∃ s, o = some s ∧ s ≠ "" := by
  cases o <;> simp [truthy]

/-- Probing the candidate list agrees with the first-match search on it. -/
theorem probeBinaries_eq_find (onPath : String → Bool) (l : List String) :
    probeBinaries onPath l =
      (match l.find? onPath with
        | some b => Except.ok b
        | none => Except.error FindError.noEmulatorFound) := by
  induction l with
  | nil => rfl
  | cons b rest ih =>
    by_cases h : onPath b
    · simp [probeBinaries, List.find?_cons, h]
    · simp [probeBinaries, List.find?_cons, h, ih]

/-- C6: emulator binary resolution probes the fixed ordered candidate list
with the on-search-path check and returns the first match; when no candidate
matches it fails with the no-emulator-found error. -/
theorem find_qemu_binary_first_match (onPath : String → Bool) :
    (∀ b, find_qemu_binary onPath = Except.ok b ↔
        qemu_binaries.find? onPath = some b)
    ∧ (find_qemu_binary onPath = Except.error FindError.noEmulatorFound ↔
        ∀ b ∈ qemu_binaries, onPath b = false) := by
  constructor
  · intro b
    rw [find_qemu_binary, probeBinaries_eq_find]
    cases h : qemu_binaries.find? onPath <;> simp_all
  · rw [find_qemu_binary, probeBinaries_eq_find]
    cases h : qemu_binaries.find? onPath with
    | none =>
      rw [List.find?_eq_none] at h
      simp only [true_iff]
      intro b hb
      simpa using h b hb
    | some b =>
      have h1 := List.find?_some h
      have h2 := List.mem_of_find?_eq_some h
      constructor
      · intro hfalse
        simp at hfalse
      · intro hall
        rw [hall b h2] at h1
        cases h1

/-- C1 counterexample: these arguments have no disk, no cdrom, no network
and KVM disabled, yet the built vector carries a boot clause, so it is not
the claimed eight-token headless vector. -/
theorem build_headless_claim_fails_on_boot :
    build_qemu_command envNone "qemu-system-x86_64" bootArgs =
      Except.ok ["qemu-system-x86_64", "-m", "2G", "-smp", "4", "-boot", "d",
        "-display", "none", "-serial", "stdio"] ∧
    (["qemu-system-x86_64", "-m", "2G", "-smp", "4", "-boot", "d",
        "-display", "none", "-serial", "stdio"] : List String) ≠
      ["qemu-system-x86_64", "-m", "2G", "-smp", "4",
        "-display", "none", "-serial", "stdio"] :=
  ⟨rfl, by decide⟩

/-- C1 amended: with no disk, no cdrom, no network and KVM disabled, and in
addition no boot order, no VNC target, no display backend, no extra
pass-through arguments, a truthy memory string and a truthy core count, the
built vector is exactly the eight-token headless vector. -/
theorem build_minimal_options_headless_exact (env : Env) (binary : String)
    (a : Args) (hm : a.memory ≠ "") (hc : a.cores ≠ 0)
    (hd : truthy a.disk = false) (hcd : truthy a.cdrom = false)
    (hb : truthy a.boot = false) (hn : a.network = false)
    (hv : truthy a.vnc = false) (hdi : truthy a.display = false)
    (hk : a.enable_kvm = false) (hq : truthy a.qemu_args = false) :
    build_qemu_command env binary a =
      Except.ok [binary, "-m", a.memory, "-smp", toString a.cores,
        "-display", "none", "-serial", "stdio"] := by
  rw [build_ok_iff]
  refine ⟨[], [], diskSection_falsy env hd, cdromSection_falsy env hcd, ?_⟩
  simp [memorySection, coresSection, hm, hc, bootSection_falsy hb,
    networkSection, hn, displaySection_falsy hv hdi, kvmSection, hk,
    qemuArgsSection_falsy hq]

/-- C1 witness: the concrete scenario with memory 2G and four cores yields
exactly the claimed vector. -/
theorem build_minimal_options_headless_scenario :
    build_qemu_command envNone "qemu-system-x86_64" scenarioArgs =
      Except.ok ["qemu-system-x86_64", "-m", "2G", "-smp", "4",
        "-display", "none", "-serial", "stdio"] :=
  build_minimal_options_headless_exact envNone "qemu-system-x86_64"
    scenarioArgs (by decide) (by decide) rfl rfl rfl rfl rfl rfl rfl rfl

/-- C2: with a disk path supplied, the build fails with the disk-not-found
error exactly when the path does not exist, and when it exists any built
vector carries the contiguous hda pair. -/
theorem disk_option_check (env : Env) (binary : String) (a : Args)
    (d : String) (hd : a.disk = some d) (hne : d ≠ "") :
    (build_qemu_command env binary a =
        Except.error (BuildError.diskNotFound d) ↔
      env.pathExists d = false)
    ∧ (env.pathExists d = true →
        ∀ v, build_qemu_command env binary a = Except.ok v →
          ∃ pre post, v = pre ++ ["-hda", d] ++ post) := by
  constructor
  · constructor
    · intro h
      by_contra hp
      rw [Bool.not_eq_false] at hp
      have hdsk : diskSection env a.disk = Except.ok ["-hda", d] := by
        simp [diskSection, hd, hne, hp]
      unfold build_qemu_command at h
      rw [hdsk] at h
      cases hcd : cdromSection env a.cdrom with
      | error e =>
        rw [hcd] at h
        obtain ⟨c, hc⟩ := cdromSection_error env hcd
        rw [hc] at h
        simp at h
      | ok cd =>
        rw [hcd] at h
        simp at h
    · intro hp
      have hdsk : diskSection env a.disk =
          Except.error (BuildError.diskNotFound d) := by
        simp [diskSection, hd, hne, hp]
      unfold build_qemu_command
      rw [hdsk]
  · intro hp v hv
    rw [build_ok_iff] at hv
    obtain ⟨dsk, cd, h1, h2, h3⟩ := hv
    rw [hd] at h1
    simp [diskSection, hne, hp] at h1
    subst h1
    exact ⟨[binary] ++ memorySection a.memory ++ coresSection a.cores,
      cd ++ bootSection a.boot ++ networkSection a.network a.network_device
        ++ displaySection a.vnc a.display ++ kvmSection env a.enable_kvm
        ++ qemuArgsSection a.qemu_args,
      by rw [h3]; simp⟩

/-- C2 witness: the equivalence and the containment at the sample disk path
in an environment where that path exists. -/
theorem disk_option_check_instance :
    (build_qemu_command envDiskOnly "qemu-system-x86_64" diskArgs =
        Except.error (BuildError.diskNotFound "/path/to/disk.qcow2") ↔
      envDiskOnly.pathExists "/path/to/disk.qcow2" = false)
    ∧ (envDiskOnly.pathExists "/path/to/disk.qcow2" = true →
        ∀ v, build_qemu_command envDiskOnly "qemu-system-x86_64" diskArgs =
            Except.ok v →
          ∃ pre post, v = pre ++ ["-hda", "/path/to/disk.qcow2"] ++ post) :=
  disk_option_check envDiskOnly "qemu-system-x86_64" diskArgs
    "/path/to/disk.qcow2" rfl (by decide)

/-- C3: every successful build embeds the single display clause computed by
the mutually exclusive precedence: a truthy VNC target forces the VNC
clause whatever the display backend, else a truthy display backend forces
that display clause, else the headless default is emitted. -/
theorem display_resolution_exclusive (env : Env) (binary : String) (a : Args)
    (v : List String) (h : build_qemu_command env binary a = Except.ok v) :
    (∃ pre post, v = pre ++ displaySection a.vnc a.display ++ post)
    ∧ ((∃ t, a.vnc = some t ∧ t ≠ "" ∧
          displaySection a.vnc a.display = ["-vnc", t])
      ∨ (truthy a.vnc = false ∧ ∃ m, a.display = some m ∧ m ≠ "" ∧
          displaySection a.vnc a.display = ["-display", m])
      ∨ (truthy a.vnc = false ∧ truthy a.display = false ∧
          displaySection a.vnc a.display =
            ["-display", "none", "-serial", "stdio"])) := by
  constructor
  · rw [build_ok_iff] at h
    obtain ⟨dsk, cd, h1, h2, h3⟩ := h
    exact ⟨[binary] ++ memorySection a.memory ++ coresSection a.cores ++ dsk
      ++ cd ++ bootSection a.boot ++ networkSection a.network a.network_device,
      kvmSection env a.enable_kvm ++ qemuArgsSection a.qemu_args,
      by rw [h3]; simp⟩
  · rcases Bool.eq_false_or_eq_true (truthy a.vnc) with hv | hv
    · obtain ⟨t, ht, hne⟩ := truthy_iff.mp hv
      exact Or.inl ⟨t, ht, hne, by simp [displaySection, ht, truthy, hne]⟩
    · rcases Bool.eq_false_or_eq_true (truthy a.display) with hd2 | hd2
      · obtain ⟨m, hm2, hne⟩ := truthy_iff.mp hd2
        have hm3 : truthy (some m) = true := by simp [truthy, hne]
        exact Or.inr (Or.inl ⟨hv, m, hm2, hne,
          by simp [displaySection, hv, hm2, hm3]⟩)
      · exact Or.inr (Or.inr ⟨hv, hd2, displaySection_falsy hv hd2⟩)

/-- C3 witness: with both a VNC target and a display backend supplied the
built vector embeds the VNC clause alone as its display clause. -/
theorem display_resolution_instance :
    (∃ pre post,
        ["qemu-system-x86_64", "-m", "1G", "-smp", "1", "-vnc", ":1"] =
          pre ++ displaySection vncArgs.vnc vncArgs.display ++ post)
    ∧ ((∃ t, vncArgs.vnc = some t ∧ t ≠ "" ∧
          displaySection vncArgs.vnc vncArgs.display = ["-vnc", t])
      ∨ (truthy vncArgs.vnc = false ∧
          ∃ m, vncArgs.display = some m ∧ m ≠ "" ∧
            displaySection vncArgs.vnc vncArgs.display = ["-display", m])
      ∨ (truthy vncArgs.vnc = false ∧ truthy vncArgs.display = false ∧
          displaySection vncArgs.vnc vncArgs.display =
            ["-display", "none", "-serial", "stdio"])) :=
  display_resolution_exclusive envNone "qemu-system-x86_64" vncArgs
    ["qemu-system-x86_64", "-m", "1G", "-smp", "1", "-vnc", ":1"] rfl

/-- C4: with KVM requested, any built vector consists of the other clauses
followed by the acceleration clause and the pass-through arguments, and the
acceleration clause is the software fallback exactly on a permission
failure, empty exactly when the device node is absent, and the hardware
enable flag exactly when the node opens successfully. -/
theorem kvm_acceleration_cases (env : Env) (binary : String) (a : Args)
    (v : List String) (hk : a.enable_kvm = true)
    (h : build_qemu_command env binary a = Except.ok v) :
    (∃ pre, v = pre ++ kvmSection env true ++ qemuArgsSection a.qemu_args)
    ∧ (env.pathExists "/dev/kvm" = true → env.kvmAccessible = false →
        kvmSection env true = ["-accel", "tcg"])
    ∧ (env.pathExists "/dev/kvm" = false → kvmSection env true = [])
    ∧ (env.pathExists "/dev/kvm" = true → env.kvmAccessible = true →
        kvmSection env true = ["-enable-kvm"]) := by
  refine ⟨?_, ?_, ?_, ?_⟩
  · rw [build_ok_iff] at h
    obtain ⟨dsk, cd, h1, h2, h3⟩ := h
    rw [hk] at h3
    exact ⟨[binary] ++ memorySection a.memory ++ coresSection a.cores ++ dsk
      ++ cd ++ bootSection a.boot ++ networkSection a.network a.network_device
      ++ displaySection a.vnc a.display,
      by simp [h3]⟩
  · intro hp ha
    simp [kvmSection, hp, ha]
  · intro hp
    simp [kvmSection, hp]
  · intro hp ha
    simp [kvmSection, hp, ha]

/-- C4 witness: the device node exists but opening it is denied, so the
built vector ends in the software-acceleration clause. -/
theorem kvm_acceleration_instance :
    (∃ pre, ["qemu-system-x86_64", "-m", "1G", "-smp", "1", "-display",
        "none", "-serial", "stdio", "-accel", "tcg"] =
      pre ++ kvmSection envKvmDenied true ++ qemuArgsSection kvmArgs.qemu_args)
    ∧ (envKvmDenied.pathExists "/dev/kvm" = true →
        envKvmDenied.kvmAccessible = false →
        kvmSection envKvmDenied true = ["-accel", "tcg"])
    ∧ (envKvmDenied.pathExists "/dev/kvm" = false →
        kvmSection envKvmDenied true = [])
    ∧ (envKvmDenied.pathExists "/dev/kvm" = true →
        envKvmDenied.kvmAccessible = true →
        kvmSection envKvmDenied true = ["-enable-kvm"]) :=
  kvm_acceleration_cases envKvmDenied "qemu-system-x86_64" kvmArgs
    ["qemu-system-x86_64", "-m", "1G", "-smp", "1", "-display", "none",
      "-serial", "stdio", "-accel", "tcg"] rfl rfl

/-- C7: with networking enabled, any built vector carries the contiguous
user-mode backend clause with the fixed id net0 and the device clause of the
configured model bound to net0. -/
theorem network_clause_present (env : Env) (binary : String) (a : Args)
    (v : List String) (hn : a.network = true)
    (h : build_qemu_command env binary a = Except.ok v) :
    ∃ pre post, v = pre ++ ["-netdev", "user,id=net0", "-device",
      a.network_device ++ ",netdev=net0"] ++ post := by
  rw [build_ok_iff] at h
  obtain ⟨dsk, cd, h1, h2, h3⟩ := h
  rw [hn] at h3
  exact ⟨[binary] ++ memorySection a.memory ++ coresSection a.cores ++ dsk
    ++ cd ++ bootSection a.boot,
    displaySection a.vnc a.display ++ kvmSection env a.enable_kvm
      ++ qemuArgsSection a.qemu_args,
    by rw [h3]; simp [networkSection]⟩

/-- C7 witness: with networking enabled and the default device model the
built vector carries the bound backend and device pair. -/
theorem network_clause_instance :
    ∃ pre post,
      ["qemu-system-x86_64", "-m", "1G", "-smp", "1", "-netdev",
        "user,id=net0", "-device", "e1000,netdev=net0", "-display", "none",
        "-serial", "stdio"] =
      pre ++ ["-netdev", "user,id=net0", "-device", "e1000,netdev=net0"]
        ++ post :=
  network_clause_present envNone "qemu-system-x86_64" netArgs
    ["qemu-system-x86_64", "-m", "1G", "-smp", "1", "-netdev",
      "user,id=net0", "-device", "e1000,netdev=net0", "-display", "none",
      "-serial", "stdio"] rfl rfl

/-- C5 counterexample: even in an environment where every filesystem path
exists, the command-line tool's disk creation launches one external
image-tool invocation for the sample target, so the zero-call guarantee
fails for it. -/
theorem cli_create_disk_calls_tool_on_existing_target :
    allExistsDiskEnv.pathExists "/path/to/disk.qcow2" = true ∧
    create_disk allExistsDiskEnv "/path/to/disk.qcow2" "10G" "qcow2" =
      ([["qemu-img", "create", "-f", "qcow2", "/path/to/disk.qcow2", "10G"]],
        0) ∧
    (create_disk allExistsDiskEnv "/path/to/disk.qcow2" "10G" "qcow2").1.length
      = 1 :=
  ⟨rfl, rfl, rfl⟩

/-- C5 amended: the setup script's disk-creation step launches no external
invocation and reports success when the VM disk already exists; the
command-line tool's passthrough creation has no such existence guard. -/
theorem setup_create_disk_zero_calls_when_disk_exists
    (e : SetupVm.DiskStepEnv) (h : e.vm_disk_exists = true) :
    SetupVm.create_disk e = ([], true) := by
  simp [SetupVm.create_disk, h]

/-- C5 witness: with the VM disk present the setup step returns no
invocations and success. -/
theorem setup_create_disk_zero_calls_instance :
    SetupVm.create_disk ⟨true, false, false⟩ = ([], true) :=
  setup_create_disk_zero_calls_when_disk_exists ⟨true, false, false⟩ rfl

/-- C8: whatever the command line, the parsed enable-kvm value is true: a
store-true action with a true default is not togglable. -/
theorem enable_kvm_always_true (flagPresent : Bool) :
    parsed_enable_kvm flagPresent = true := by
  cases flagPresent <;> rfl

/-- C9: a stop invocation whose PID file names a vanished process signals
the recorded PID, falls back to the pattern kill and removes the PID file;
the fallback's own success flag is unconstrained, so either outcome yields
the same effects. -/
theorem stop_vm_stale_pid_fallback (e : SetupVm.StopEnv) (n : Int)
    (h1 : e.pid_file_exists = true)
    (h2 : e.read_result = SetupVm.ReadResult.pid n)
    (h3 : e.kill_result = SetupVm.KillResult.processLookup) :
    SetupVm.stop_vm e = [SetupVm.StopAction.killPid n,
      SetupVm.StopAction.patternKill, SetupVm.StopAction.unlinkPidFile] := by
  simp [SetupVm.stop_vm, h1, h2, h3]

/-- C9 witness: a concrete stale PID with a failing fallback still ends in
the pattern kill followed by PID-file removal. -/
theorem stop_vm_stale_pid_instance :
    SetupVm.stop_vm ⟨true, SetupVm.ReadResult.pid 4242,
        SetupVm.KillResult.processLookup, false⟩ =
      [SetupVm.StopAction.killPid 4242, SetupVm.StopAction.patternKill,
        SetupVm.StopAction.unlinkPidFile] :=
  stop_vm_stale_pid_fallback ⟨true, SetupVm.ReadResult.pid 4242,
    SetupVm.KillResult.processLookup, false⟩ 4242 rfl rfl rfl

/-- C10: with a PID file naming a parsed PID, a permission failure on the
zero-signal probe reports running and keeps the file, while only a
process-lookup failure takes the stale transition of reporting stopped and
deleting the file. -/
theorem status_probe_permission_vs_lookup (e : SetupVm.StatusEnv) (n : Int)
    (h1 : e.pid_file_exists = true)
    (h2 : e.read_result = SetupVm.ReadResult.pid n) :
    (e.probe_result = SetupVm.KillResult.permission →
      SetupVm.check_vm_status e = (SetupVm.VmStatus.running n, false))
    ∧ (e.probe_result = SetupVm.KillResult.processLookup →
      SetupVm.check_vm_status e = (SetupVm.VmStatus.stoppedStale, true)) := by
  constructor <;> intro h3 <;> simp [SetupVm.check_vm_status, h1, h2, h3]

/-- C10 witness: a concrete permission-denied probe reports running with the
PID file kept. -/
theorem status_probe_instance :
    ((⟨true, SetupVm.ReadResult.pid 7, SetupVm.KillResult.permission,
        false⟩ : SetupVm.StatusEnv).probe_result =
          SetupVm.KillResult.permission →
      SetupVm.check_vm_status ⟨true, SetupVm.ReadResult.pid 7,
          SetupVm.KillResult.permission, false⟩ =
        (SetupVm.VmStatus.running 7, false))
    ∧ ((⟨true, SetupVm.ReadResult.pid 7, SetupVm.KillResult.permission,
        false⟩ : SetupVm.StatusEnv).probe_result =
          SetupVm.KillResult.processLookup →
      SetupVm.check_vm_status ⟨true, SetupVm.ReadResult.pid 7,
          SetupVm.KillResult.permission, false⟩ =
        (SetupVm.VmStatus.stoppedStale, true)) :=
  status_probe_permission_vs_lookup ⟨true, SetupVm.ReadResult.pid 7,
    SetupVm.KillResult.permission, false⟩ 7 rfl rfl
